import Mathlib

/-!
Verification of the income-statement decomposition pipeline of the
fin.sankey dashboard: a shallow embedding of
`modules/data_manager.py` (statement accessor `get_val` and the
decomposition `extract_sankey_data`), `modules/visualizer.py`
(`plot_sankey` link construction, `plot_waterfall`,
`calculate_yoy_metrics`) and `modules/utils.py`
(`retry_on_rate_limit`), together with theorems settling the spec
claims about them.

Numeric cells are embedded as rationals (exact arithmetic in place of
the source's IEEE floats; every claim below is about exact identities,
sign clamps, field framing or control flow, none of which depend on
rounding). A pandas cell is `Cell.num q` when it is a plain number
that `float(...)` coerces, `Cell.null` when `pd.notnull` is false for
it (NaN/None), and `Cell.bad` when `float(...)` raises on it.
Raised exceptions are embedded as `Except.error`.
-/

namespace FinSankey

/-- One cell of the tabular statement, as seen by the Python code. -/
inductive Cell
  | num (q : ℚ)
  | null
  | bad
  deriving DecidableEq, Repr

/-- A financial statement DataFrame: row labels (line items) with their
per-period cell lists, columns ordered most-recent-first. `ncols` is the
number of period columns; pandas frames are rectangular, recorded by `wf`. -/
structure Stmt where
  ncols : ℕ
  rows : List (String × List Cell)
  wf : ∀ r ∈ rows, (r : String × List Cell).2.length = ncols

/-- Whether a line-item label occurs among the statement's row labels. -/
def hasRow (s : Stmt) (k : String) : Bool :=
  s.rows.any (fun r => r.1 = k)

/-- Column selection `income_stmt.iloc[:, p]`: valid for `-ncols ≤ p < ncols`
(Python negative indexing counts from the end); out of range raises
IndexError, embedded as `Except.error`. -/
def selectCol (s : Stmt) (p : ℤ) : Except Unit (List (String × Cell)) :=
  if -(s.ncols : ℤ) ≤ p ∧ p < (s.ncols : ℤ) then
    let j : ℕ := (if p < 0 then p + (s.ncols : ℤ) else p).toNat
    .ok (s.rows.map (fun r => (r.1, r.2.getD j Cell.bad)))
  else .error ()

/-- The statement accessor `get_val(keys)` of `extract_sankey_data`
(data_manager.py lines 193-198): try each key in order; a key absent from
the index is skipped; for a present key the stored value is returned
coerced to float, with a null value giving `0.0`; a non-coercible value
makes `float(...)` raise, and a duplicated row label makes `latest[k]`
return a Series on which the conditional raises — both embedded as
`Except.error`. No key present at all gives `0.0`. -/
def get_val (latest : List (String × Cell)) : List String → Except Unit ℚ
  | [] => .ok 0
  | k :: rest =>
    match latest.filter (fun r => r.1 = k) with
    | [] => get_val latest rest
    | [(_, Cell.num q)] => .ok q
    | [(_, Cell.null)] => .ok 0
    | _ => .error ()

/-- The eleven named fields returned by `extract_sankey_data`
(data_manager.py lines 224-236). -/
structure DecomposedPeriod where
  Revenue : ℚ
  COGS : ℚ
  GrossProfit : ℚ
  OpEx_Total : ℚ
  RnD : ℚ
  SGnA : ℚ
  OtherOpEx : ℚ
  OperatingProfit : ℚ
  Taxes : ℚ
  Interest : ℚ
  NetIncome : ℚ
  deriving DecidableEq, Repr

/-- Arithmetic part of `extract_sankey_data` (data_manager.py lines
200-236), applied to the seven looked-up raw values. -/
def decomposeVals (revenue_mod cost_mod rev0 cogs0 opex_total rnd sga taxes interest0 : ℚ) :
    DecomposedPeriod :=
  let revenue := rev0 * revenue_mod
  let cogs := cogs0 * cost_mod
  let gross_profit := revenue - cogs
  let other_opex0 := opex_total - rnd - sga
  let other_opex := if other_opex0 < 0 then 0 else other_opex0
  let op_profit := gross_profit - opex_total
  let interest := |interest0|
  let net_income := op_profit - taxes - interest
  { Revenue := revenue, COGS := cogs, GrossProfit := gross_profit,
    OpEx_Total := opex_total, RnD := rnd, SGnA := sga,
    OtherOpEx := other_opex, OperatingProfit := op_profit,
    Taxes := taxes, Interest := interest, NetIncome := net_income }

/-- Body of the `try` block of `extract_sankey_data` after the emptiness
check (data_manager.py lines 188-236): fall back to period 0 when
`period_index >= len(columns)`, select the column, look the seven
concepts up, and build the result record. Any raise is `Except.error`. -/
def extract_core (s : Stmt) (period_index : ℤ) (revenue_mod cost_mod : ℚ) :
    Except Unit DecomposedPeriod :=
  match selectCol s (if period_index ≥ (s.ncols : ℤ) then 0 else period_index) with
  | .error e => .error e
  | .ok latest =>
    match get_val latest ["Total Revenue", "Revenue"],
          get_val latest ["Cost Of Revenue", "Cost of Goods Sold"],
          get_val latest ["Operating Expense", "Total Operating Expenses"],
          get_val latest ["Research And Development"],
          get_val latest ["Selling General And Administration"],
          get_val latest ["Tax Provision", "Income Tax Expense"],
          get_val latest ["Interest Expense", "Interest Income Expense Net"] with
    | .ok rev0, .ok cogs0, .ok opex_total, .ok rnd, .ok sga, .ok taxes, .ok interest0 =>
        .ok (decomposeVals revenue_mod cost_mod rev0 cogs0 opex_total rnd sga taxes interest0)
    | _, _, _, _, _, _, _ => .error ()

/-- The public `extract_sankey_data` (data_manager.py lines 173-240):
`None` or empty input gives the empty mapping, and the surrounding
`except Exception` handler turns every raise into the empty mapping as
well. `none` embeds the returned empty dict `\x7b\x7d`. -/
def extract_sankey_data (income_stmt : Option Stmt) (period_index : ℤ)
    (revenue_mod cost_mod : ℚ) : Option DecomposedPeriod :=
  match income_stmt with
  | none => none
  | some s =>
    if s.rows = [] ∨ s.ncols = 0 then none
    else
      match extract_core s period_index revenue_mod cost_mod with
      | .ok d => some d
      | .error _ => none

/-- Key/value pairs of the returned dict, in source order
(data_manager.py lines 224-236). -/
def toPairs (d : DecomposedPeriod) : List (String × ℚ) :=
  [("Revenue", d.Revenue), ("COGS", d.COGS), ("Gross Profit", d.GrossProfit),
   ("OpEx_Total", d.OpEx_Total), ("R&D", d.RnD), ("SG&A", d.SGnA),
   ("Other OpEx", d.OtherOpEx), ("Operating Profit", d.OperatingProfit),
   ("Taxes", d.Taxes), ("Interest", d.Interest), ("Net Income", d.NetIncome)]

/-- The eleven keys of a non-empty `extract_sankey_data` result. -/
def sankeyKeys : List String :=
  ["Revenue", "COGS", "Gross Profit", "OpEx_Total", "R&D", "SG&A",
   "Other OpEx", "Operating Profit", "Taxes", "Interest", "Net Income"]

/-- Inversion: a non-empty decomposition result comes from seven
successful lookups on the selected column, combined by `decomposeVals`. -/
theorem extract_core_inv {s : Stmt} {pi : ℤ} {rm cm : ℚ} {d : DecomposedPeriod}
    (h : extract_core s pi rm cm = .ok d) :
    ∃ latest rev0 cogs0 opex_total rnd sga taxes interest0,
      selectCol s (if pi ≥ (s.ncols : ℤ) then 0 else pi) = .ok latest ∧
      get_val latest ["Total Revenue", "Revenue"] = .ok rev0 ∧
      get_val latest ["Cost Of Revenue", "Cost of Goods Sold"] = .ok cogs0 ∧
      get_val latest ["Operating Expense", "Total Operating Expenses"] = .ok opex_total ∧
      get_val latest ["Research And Development"] = .ok rnd ∧
      get_val latest ["Selling General And Administration"] = .ok sga ∧
      get_val latest ["Tax Provision", "Income Tax Expense"] = .ok taxes ∧
      get_val latest ["Interest Expense", "Interest Income Expense Net"] = .ok interest0 ∧
      d = decomposeVals rm cm rev0 cogs0 opex_total rnd sga taxes interest0 := by
  unfold extract_core at h
  split at h
  · cases h
  · split at h <;> cases h
    rename_i latest hsel x1 x2 x3 x4 x5 x6 x7 rev0 cogs0 opex rnd sga taxes int0
      h1 h2 h3 h4 h5 h6 h7
    exact ⟨latest, rev0, cogs0, opex, rnd, sga, taxes, int0,
      hsel, h1, h2, h3, h4, h5, h6, h7, rfl⟩

/-- Inversion for the public wrapper. -/
theorem extract_sankey_data_inv {stmt : Option Stmt} {pi : ℤ} {rm cm : ℚ}
    {d : DecomposedPeriod} (h : extract_sankey_data stmt pi rm cm = some d) :
    ∃ s, stmt = some s ∧ extract_core s pi rm cm = .ok d := by
  cases stmt with
  | none => cases h
  | some s =>
    refine ⟨s, rfl, ?_⟩
    simp only [extract_sankey_data] at h
    split at h
    · cases h
    · split at h <;> cases h
      assumption

/-- C1. For every statement for which decomposition returns a non-empty
result (any period index and any revenue/cost multipliers), the eleven
output fields satisfy exactly: GrossProfit = Revenue - COGS,
OperatingProfit = GrossProfit - OpEx_Total, NetIncome = OperatingProfit
- Taxes - Interest, OtherOpEx ≥ 0, and Interest ≥ 0. -/
theorem C1_identity_invariants (stmt : Option Stmt) (pi : ℤ) (rm cm : ℚ)
    (d : DecomposedPeriod) (h : extract_sankey_data stmt pi rm cm = some d) :
    d.GrossProfit = d.Revenue - d.COGS ∧
    d.OperatingProfit = d.GrossProfit - d.OpEx_Total ∧
    d.NetIncome = d.OperatingProfit - d.Taxes - d.Interest ∧
    0 ≤ d.OtherOpEx ∧ 0 ≤ d.Interest := by
  obtain ⟨s, -, hc⟩ := extract_sankey_data_inv h
  obtain ⟨latest, rev0, cogs0, opex, rnd, sga, taxes, int0,
    -, -, -, -, -, -, -, -, hd⟩ := extract_core_inv hc
  subst hd
  unfold decomposeVals
  refine ⟨rfl, rfl, rfl, ?_, abs_nonneg _⟩
  dsimp only
  split
  · exact le_refl 0
  · linarith [not_lt.mp (by assumption : ¬ opex - rnd - sga < 0)]

theorem decomposeVals_Revenue (rm cm r c o n g t i : ℚ) :
    (decomposeVals rm cm r c o n g t i).Revenue = r * rm := rfl

theorem decomposeVals_COGS (rm cm r c o n g t i : ℚ) :
    (decomposeVals rm cm r c o n g t i).COGS = c * cm := rfl

theorem decomposeVals_OpEx_Total (rm cm r c o n g t i : ℚ) :
    (decomposeVals rm cm r c o n g t i).OpEx_Total = o := rfl

theorem decomposeVals_RnD (rm cm r c o n g t i : ℚ) :
    (decomposeVals rm cm r c o n g t i).RnD = n := rfl

theorem decomposeVals_SGnA (rm cm r c o n g t i : ℚ) :
    (decomposeVals rm cm r c o n g t i).SGnA = g := rfl

theorem decomposeVals_Taxes (rm cm r c o n g t i : ℚ) :
    (decomposeVals rm cm r c o n g t i).Taxes = t := rfl

theorem decomposeVals_Interest (rm cm r c o n g t i : ℚ) :
    (decomposeVals rm cm r c o n g t i).Interest = |i| := rfl

/-- Demo one-period statement: the end-to-end scenario of the spec,
scaled to small numbers (Revenue 100, COGS 40, OpEx 20, R and D 8,
SG and A 10, Taxes 8, Interest 1). -/
def demoStmt : Stmt :=
  ⟨1, [("Total Revenue", [Cell.num 100]), ("Cost Of Revenue", [Cell.num 40]),
       ("Operating Expense", [Cell.num 20]), ("Research And Development", [Cell.num 8]),
       ("Selling General And Administration", [Cell.num 10]),
       ("Tax Provision", [Cell.num 8]), ("Interest Expense", [Cell.num 1])],
   by decide⟩

theorem demoStmt_eval :
    extract_sankey_data (some demoStmt) 0 1 1 = some (decomposeVals 1 1 100 40 20 8 10 8 1) :=
  rfl

/-- Witness for C1 at the demo statement. -/
theorem C1_identity_invariants_witness :
    (decomposeVals 1 1 100 40 20 8 10 8 1).GrossProfit =
      (decomposeVals 1 1 100 40 20 8 10 8 1).Revenue -
        (decomposeVals 1 1 100 40 20 8 10 8 1).COGS ∧
    (decomposeVals 1 1 100 40 20 8 10 8 1).OperatingProfit =
      (decomposeVals 1 1 100 40 20 8 10 8 1).GrossProfit -
        (decomposeVals 1 1 100 40 20 8 10 8 1).OpEx_Total ∧
    (decomposeVals 1 1 100 40 20 8 10 8 1).NetIncome =
      (decomposeVals 1 1 100 40 20 8 10 8 1).OperatingProfit -
        (decomposeVals 1 1 100 40 20 8 10 8 1).Taxes -
          (decomposeVals 1 1 100 40 20 8 10 8 1).Interest ∧
    0 ≤ (decomposeVals 1 1 100 40 20 8 10 8 1).OtherOpEx ∧
    0 ≤ (decomposeVals 1 1 100 40 20 8 10 8 1).Interest :=
  C1_identity_invariants (some demoStmt) 0 1 1 _ demoStmt_eval

/-- Counterexample to C2: on a statement whose first alias "Total
Revenue" is present but null while "Revenue" is present with value 5,
the accessor returns 0 immediately instead of the second alias's 5. -/
theorem C2_counterexample :
    get_val [("Total Revenue", Cell.null), ("Revenue", Cell.num 5)]
      ["Total Revenue", "Revenue"] = Except.ok 0 ∧ (0 : ℚ) ≠ 5 := by
  exact ⟨rfl, by decide⟩

/-- C2 (amended). The accessor tries candidates in order and skips a
candidate absent from the index, but a candidate present with a null
stored value stops the search and yields 0.0 at once (the remaining
aliases are not tried); a present non-null numeric value is returned
as is. -/
theorem C2_null_alias_semantics (latest : List (String × Cell)) (k : String)
    (rest : List String) :
    (latest.filter (fun r => r.1 = k) = [] →
      get_val latest (k :: rest) = get_val latest rest) ∧
    (∀ nm, latest.filter (fun r => r.1 = k) = [(nm, Cell.null)] →
      get_val latest (k :: rest) = Except.ok 0) ∧
    (∀ nm q, latest.filter (fun r => r.1 = k) = [(nm, Cell.num q)] →
      get_val latest (k :: rest) = Except.ok q) := by
  refine ⟨fun hf => ?_, fun nm hf => ?_, fun nm q hf => ?_⟩ <;>
    simp only [get_val, hf]

/-- Witness for the amended C2 on concrete columns. -/
theorem C2_null_alias_semantics_witness :
    get_val [("Revenue", Cell.num 5)] ["Total Revenue", "Revenue"] =
      get_val [("Revenue", Cell.num 5)] ["Revenue"] ∧
    get_val [("Total Revenue", Cell.null), ("Revenue", Cell.num 5)]
      ["Total Revenue", "Revenue"] = Except.ok 0 ∧
    get_val [("Revenue", Cell.num 5)] ["Revenue"] = Except.ok 5 :=
  ⟨(C2_null_alias_semantics [("Revenue", Cell.num 5)] "Total Revenue" ["Revenue"]).1
      (by decide),
   (C2_null_alias_semantics [("Total Revenue", Cell.null), ("Revenue", Cell.num 5)]
      "Total Revenue" ["Revenue"]).2.1 "Total Revenue" (by decide),
   (C2_null_alias_semantics [("Revenue", Cell.num 5)] "Revenue" []).2.2
      "Revenue" 5 (by decide)⟩

/-- C3. The revenue multiplier scales only the Revenue field and the
cost multiplier only the COGS field: relative to the unmodified call,
Revenue is scaled by rm, COGS by cm, and the looked-up fields R&D,
SG&A, OpEx_Total, Taxes and Interest are identical. -/
theorem C3_multiplier_framing (stmt : Option Stmt) (pi : ℤ) (rm cm : ℚ)
    (d d0 : DecomposedPeriod)
    (h : extract_sankey_data stmt pi rm cm = some d)
    (h0 : extract_sankey_data stmt pi 1 1 = some d0) :
    d.Revenue = d0.Revenue * rm ∧ d.COGS = d0.COGS * cm ∧
    d.RnD = d0.RnD ∧ d.SGnA = d0.SGnA ∧ d.OpEx_Total = d0.OpEx_Total ∧
    d.Taxes = d0.Taxes ∧ d.Interest = d0.Interest := by
  obtain ⟨s, hs, hc⟩ := extract_sankey_data_inv h
  obtain ⟨s0, hs0, hc0⟩ := extract_sankey_data_inv h0
  rw [hs] at hs0
  cases hs0
  obtain ⟨latest, r, c, o, n, g, t, i, hsel, h1, h2, h3, h4, h5, h6, h7, hd⟩ :=
    extract_core_inv hc
  obtain ⟨latest0, r0, c0, o0, n0, g0, t0, i0, hsel0, h10, h20, h30, h40, h50, h60, h70, hd0⟩ :=
    extract_core_inv hc0
  rw [hsel] at hsel0; cases hsel0
  rw [h1] at h10; cases h10
  rw [h2] at h20; cases h20
  rw [h3] at h30; cases h30
  rw [h4] at h40; cases h40
  rw [h5] at h50; cases h50
  rw [h6] at h60; cases h60
  rw [h7] at h70; cases h70
  subst hd; subst hd0
  simp only [decomposeVals_Revenue, decomposeVals_COGS, decomposeVals_RnD,
    decomposeVals_SGnA, decomposeVals_OpEx_Total, decomposeVals_Taxes,
    decomposeVals_Interest, mul_one]
  exact ⟨trivial, trivial, trivial, trivial, trivial, trivial, trivial⟩

theorem demoStmt_eval_mods :
    extract_sankey_data (some demoStmt) 0 2 3 = some (decomposeVals 2 3 100 40 20 8 10 8 1) :=
  rfl

/-- Witness for C3 at the demo statement with rm = 2, cm = 3. -/
theorem C3_multiplier_framing_witness :
    (decomposeVals 2 3 100 40 20 8 10 8 1).Revenue =
      (decomposeVals 1 1 100 40 20 8 10 8 1).Revenue * 2 ∧
    (decomposeVals 2 3 100 40 20 8 10 8 1).COGS =
      (decomposeVals 1 1 100 40 20 8 10 8 1).COGS * 3 ∧
    (decomposeVals 2 3 100 40 20 8 10 8 1).RnD =
      (decomposeVals 1 1 100 40 20 8 10 8 1).RnD ∧
    (decomposeVals 2 3 100 40 20 8 10 8 1).SGnA =
      (decomposeVals 1 1 100 40 20 8 10 8 1).SGnA ∧
    (decomposeVals 2 3 100 40 20 8 10 8 1).OpEx_Total =
      (decomposeVals 1 1 100 40 20 8 10 8 1).OpEx_Total ∧
    (decomposeVals 2 3 100 40 20 8 10 8 1).Taxes =
      (decomposeVals 1 1 100 40 20 8 10 8 1).Taxes ∧
    (decomposeVals 2 3 100 40 20 8 10 8 1).Interest =
      (decomposeVals 1 1 100 40 20 8 10 8 1).Interest :=
  C3_multiplier_framing (some demoStmt) 0 2 3 _ _ demoStmt_eval_mods demoStmt_eval

/-- Counterexample to C4: on the one-column demo statement, the negative
out-of-range period index -2 yields the empty result, while period 0
yields a non-empty one — so the two differ. -/
theorem C4_counterexample :
    extract_sankey_data (some demoStmt) (-2) 1 1 = none ∧
    extract_sankey_data (some demoStmt) 0 1 1 ≠ none := by
  refine ⟨rfl, ?_⟩
  rw [demoStmt_eval]
  exact fun h => Option.noConfusion h

/-- C4 (amended): the silent fallback to period 0 happens exactly for
period_index ≥ the number of period columns; a negative out-of-range
index is not redirected — the column selection raises inside the guarded
block and the handler returns the empty result instead. -/
theorem C4_period_fallback (s : Stmt) (pi : ℤ) (rm cm : ℚ) :
    ((s.ncols : ℤ) ≤ pi →
      extract_sankey_data (some s) pi rm cm = extract_sankey_data (some s) 0 rm cm) ∧
    (pi < -(s.ncols : ℤ) → extract_sankey_data (some s) pi rm cm = none) := by
  constructor
  · intro hp
    simp only [extract_sankey_data, extract_core]
    rw [if_pos hp, ite_self]
  · intro hn
    have hguard : ¬ (pi ≥ (s.ncols : ℤ)) := by omega
    have hsel : selectCol s pi = .error () := by
      unfold selectCol
      rw [if_neg]
      rintro ⟨h1, -⟩
      omega
    simp only [extract_sankey_data, extract_core]
    rw [if_neg hguard, hsel, ite_self]

/-- Witness for the amended C4 at the demo statement, with the in-range
fallback index 999 and the negative out-of-range index -2. -/
theorem C4_period_fallback_witness :
    extract_sankey_data (some demoStmt) 999 1 1 =
      extract_sankey_data (some demoStmt) 0 1 1 ∧
    extract_sankey_data (some demoStmt) (-2) 1 1 = none :=
  ⟨(C4_period_fallback demoStmt 999 1 1).1 (by decide),
   (C4_period_fallback demoStmt (-2) 1 1).2 (by decide)⟩

/-- Statement whose revenue cell is not coercible to float: the body of
extract_sankey_data raises on it. -/
def badStmt : Stmt := ⟨1, [("Total Revenue", [Cell.bad])], by decide⟩

/-- Counterexample to C5: on a malformed statement the internal
computation raises, but the caller receives the silent empty mapping —
the pipeline is not stopped by a propagated hard failure. -/
theorem C5_counterexample :
    extract_core badStmt 0 1 1 = Except.error () ∧
    extract_sankey_data (some badStmt) 0 1 1 = none :=
  ⟨rfl, rfl⟩

/-- C5 (amended): malformed statement contents make the internal
extraction raise, but the surrounding handler catches every exception
and returns the empty mapping, indistinguishable from the no-data
result; no hard failure reaches the caller. -/
theorem C5_malformed_swallowed (s : Stmt) (pi : ℤ) (rm cm : ℚ)
    (h : extract_core s pi rm cm = Except.error ()) :
    extract_sankey_data (some s) pi rm cm = none := by
  simp only [extract_sankey_data, h]
  exact ite_self none

/-- Witness for the amended C5 at the malformed statement. -/
theorem C5_malformed_swallowed_witness :
    extract_sankey_data (some badStmt) 0 1 1 = none :=
  C5_malformed_swallowed badStmt 0 1 1 rfl

/-- A link of the Sankey flow graph: source node index, target node
index, carried value, and the translucent flow-class link color. -/
structure Link where
  src : ℕ
  tgt : ℕ
  val : ℚ
  color : String
  deriving DecidableEq, Repr

/-- Link color chosen from the flow-class tag (visualizer.py lines
68-71). -/
def linkColor (ty : String) : String :=
  if ty = "profit" then "rgba(52, 168, 83, 0.4)"
  else if ty = "cost" then "rgba(234, 67, 53, 0.4)"
  else "rgba(66, 133, 244, 0.3)"

/-- The add_link helper of plot_sankey (visualizer.py lines 63-71):
a link is appended only when its value is strictly positive. -/
def add_link (acc : List Link) (src tgt : ℕ) (val : ℚ) (ty : String) : List Link :=
  if 0 < val then acc ++ [⟨src, tgt, val, linkColor ty⟩] else acc

/-- The ten Sankey nodes (visualizer.py lines 30-41), as the node name
and the value shown in its label (the label's string formatting is
presentation only and elided). -/
def sankeyNodes (d : DecomposedPeriod) : List (String × ℚ) :=
  [("Revenue", d.Revenue), ("Gross Profit", d.GrossProfit), ("Cost of Rev", d.COGS),
   ("Op Profit", d.OperatingProfit), ("R&D", d.RnD), ("SG&A", d.SGnA),
   ("Other OpEx", d.OtherOpEx), ("Net Income", d.NetIncome),
   ("Tax", d.Taxes), ("Interest", d.Interest)]

/-- The nine add_link calls of plot_sankey in source order
(visualizer.py lines 73-87). -/
def sankeyLinks (d : DecomposedPeriod) : List Link :=
  add_link (add_link (add_link (add_link (add_link (add_link (add_link (add_link (add_link []
    0 1 d.GrossProfit "profit")
    0 2 d.COGS "cost")
    1 3 d.OperatingProfit "profit")
    1 4 d.RnD "cost")
    1 5 d.SGnA "cost")
    1 6 d.OtherOpEx "cost")
    3 7 d.NetIncome "profit")
    3 8 d.Taxes "cost")
    3 9 d.Interest "cost"

/-- The node/link data of the go.Sankey figure. -/
structure SankeyFigure where
  nodes : List (String × ℚ)
  links : List Link
  deriving Repr

/-- plot_sankey (visualizer.py lines 20-108): falsy data gives the
empty figure, otherwise the fixed nodes and the positive links. -/
def plot_sankey : Option DecomposedPeriod → SankeyFigure
  | none => ⟨[], []⟩
  | some d => ⟨sankeyNodes d, sankeyLinks d⟩

/-- Whether the link list has an edge with the given endpoints. -/
def hasEdge (ls : List Link) (src tgt : ℕ) : Bool :=
  ls.any (fun l => l.src = src && l.tgt = tgt)

theorem mem_add_link {l : Link} {acc : List Link} {src tgt : ℕ} {val : ℚ} {ty : String} :
    l ∈ add_link acc src tgt val ty ↔
      l ∈ acc ∨ (0 < val ∧ l = ⟨src, tgt, val, linkColor ty⟩) := by
  unfold add_link
  split
  · simp [*]
  · simp [*]

theorem add_link_pos {acc : List Link} {src tgt : ℕ} {val : ℚ} {ty : String}
    (hacc : ∀ l ∈ acc, 0 < l.val) :
    ∀ l ∈ add_link acc src tgt val ty, 0 < l.val := by
  intro l hl
  rw [mem_add_link] at hl
  rcases hl with h | ⟨hv, rfl⟩
  · exact hacc _ h
  · exact hv

theorem add_link_length_le {acc : List Link} {n : ℕ} {src tgt : ℕ} {val : ℚ} {ty : String}
    (h : acc.length ≤ n) : (add_link acc src tgt val ty).length ≤ n + 1 := by
  unfold add_link
  split
  · simpa using Nat.succ_le_succ h
  · exact le_trans h (Nat.le_succ n)

theorem hasEdge_add_link {acc : List Link} {src tgt a b : ℕ} {val : ℚ} {ty : String} :
    hasEdge (add_link acc src tgt val ty) a b = true ↔
      hasEdge acc a b = true ∨ (0 < val ∧ src = a ∧ tgt = b) := by
  unfold hasEdge add_link
  split
  · simp_all
  · simp_all

theorem hasEdge_nil {a b : ℕ} : hasEdge [] a b = false := rfl

/-- All-positive decomposed period (the spec's own end-to-end example,
scaled down): Revenue 100, COGS 40, GrossProfit 60, OpEx 20, R and D 8,
SG and A 10, OtherOpEx 2, OperatingProfit 40, Taxes 8, Interest 1,
NetIncome 31. -/
def C6period : DecomposedPeriod := ⟨100, 40, 60, 20, 8, 10, 2, 40, 8, 1, 31⟩

/-- Counterexample to C6: the all-positive demo decomposition produces a
flow graph with 9 emitted edges, exceeding the claimed bound of 8. -/
theorem C6_counterexample :
    (plot_sankey (some C6period)).links.length = 9 ∧ ¬ ((9 : ℕ) ≤ 8) := by
  refine ⟨?_, by decide⟩
  norm_num [plot_sankey, sankeyLinks, add_link, C6period]

/-- C6 (amended): the flow graph of a non-empty DecomposedPeriod has the
10 fixed nodes and up to 9 fixed directed edges (the fixed edge list has
nine entries, not eight); every emitted edge carries a strictly positive
value, and each edge of the fixed list is omitted exactly when its value
is ≤ 0 — in particular OtherOpEx = 0 omits the GrossProfit→OtherOpEx
edge — so the emitted edge count never exceeds 9. -/
theorem C6_flow_graph (d : DecomposedPeriod) :
    (sankeyNodes d).length = 10 ∧
    (sankeyLinks d).length ≤ 9 ∧
    (∀ l ∈ sankeyLinks d, 0 < l.val) ∧
    (hasEdge (sankeyLinks d) 0 1 = true ↔ 0 < d.GrossProfit) ∧
    (hasEdge (sankeyLinks d) 0 2 = true ↔ 0 < d.COGS) ∧
    (hasEdge (sankeyLinks d) 1 3 = true ↔ 0 < d.OperatingProfit) ∧
    (hasEdge (sankeyLinks d) 1 4 = true ↔ 0 < d.RnD) ∧
    (hasEdge (sankeyLinks d) 1 5 = true ↔ 0 < d.SGnA) ∧
    (hasEdge (sankeyLinks d) 1 6 = true ↔ 0 < d.OtherOpEx) ∧
    (hasEdge (sankeyLinks d) 3 7 = true ↔ 0 < d.NetIncome) ∧
    (hasEdge (sankeyLinks d) 3 8 = true ↔ 0 < d.Taxes) ∧
    (hasEdge (sankeyLinks d) 3 9 = true ↔ 0 < d.Interest) := by
  refine ⟨rfl, ?_, ?_, ?_, ?_, ?_, ?_, ?_, ?_, ?_, ?_, ?_⟩
  · exact add_link_length_le (add_link_length_le (add_link_length_le (add_link_length_le
      (add_link_length_le (add_link_length_le (add_link_length_le (add_link_length_le
        (add_link_length_le (Nat.le_refl 0)))))))))
  · exact add_link_pos (add_link_pos (add_link_pos (add_link_pos (add_link_pos
      (add_link_pos (add_link_pos (add_link_pos (add_link_pos
        (by intro l hl; cases hl)))))))))
  all_goals simp [sankeyLinks, hasEdge_add_link, hasEdge_nil]

/-- Witness for the amended C6 at the all-positive period: a concrete
emitted link carries a positive value, and the edge count is within 9. -/
theorem C6_flow_graph_witness :
    0 < (Link.mk 0 1 60 (linkColor ("profit"))).val ∧
    (sankeyLinks C6period).length ≤ 9 :=
  ⟨(C6_flow_graph C6period).2.2.1 ⟨0, 1, 60, linkColor ("profit")⟩ (by decide),
   (C6_flow_graph C6period).2.1⟩

/-- The name/value/measure triple data of the go.Waterfall figure
(visualizer.py lines 110-142). -/
structure WaterfallFigure where
  names : List String
  vals : List ℚ
  measure : List String
  deriving Repr

/-- plot_waterfall (visualizer.py lines 110-142): falsy data gives the
empty figure; otherwise the fixed 10-entry bridge with costs negated and
the fixed measure kinds. -/
def plot_waterfall : Option DecomposedPeriod → WaterfallFigure
  | none => ⟨[], [], []⟩
  | some d =>
    ⟨["Revenue", "COGS", "Gross Profit", "R&D", "SG&A", "Other OpEx",
      "Op Profit", "Tax", "Interest", "Net Income"],
     [d.Revenue, -d.COGS, d.GrossProfit, -d.RnD, -d.SGnA, -d.OtherOpEx,
      d.OperatingProfit, -d.Taxes, -d.Interest, d.NetIncome],
     ["absolute", "relative", "total", "relative", "relative", "relative",
      "total", "relative", "relative", "total"]⟩

/-- C7. For every non-empty DecomposedPeriod the bridge is the fixed
10-row sequence Revenue(absolute), -COGS(relative), GrossProfit(total),
-R&D(relative), -SG&A(relative), -OtherOpEx(relative),
OperatingProfit(total), -Taxes(relative), -Interest(relative),
NetIncome(total), in exactly that order, with every cost entry
negated. -/
theorem C7_bridge_sequence (d : DecomposedPeriod) :
    (plot_waterfall (some d)).vals.zip (plot_waterfall (some d)).measure =
      [(d.Revenue, "absolute"), (-d.COGS, "relative"), (d.GrossProfit, "total"),
       (-d.RnD, "relative"), (-d.SGnA, "relative"), (-d.OtherOpEx, "relative"),
       (d.OperatingProfit, "total"), (-d.Taxes, "relative"), (-d.Interest, "relative"),
       (d.NetIncome, "total")] ∧
    (plot_waterfall (some d)).names.length = 10 :=
  ⟨rfl, rfl⟩

/-- The fixed metric list of calculate_yoy_metrics (visualizer.py lines
288-293): source line-item key paired with the display name. -/
def metrics_to_calc : List (String × String) :=
  [("Total Revenue", "Revenue"), ("Gross Profit", "Gross Profit"),
   ("Operating Income", "Operating Income"), ("Net Income", "Net Income")]

/-- One iteration of the calculate_yoy_metrics loop (visualizer.py
lines 295-306): a key absent from the index is skipped; a unique row
with plain-number cells at periods 0 and 1 appends the pair of the
current value and the percentage change, with a zero previous value
giving None instead of a division; cells that are not plain numbers
(source NaN or non-numeric, whose float arithmetic is outside the
rational embedding) and duplicated labels (on which the source raises)
are embedded as failures. -/
def yoyCells (acc : List (String × (ℚ × Option ℚ))) (name : String) :
    Cell → Cell → Except Unit (List (String × (ℚ × Option ℚ)))
  | Cell.num current, Cell.num previous =>
      .ok (acc ++ [(name, (current,
        if previous ≠ 0 then some ((current - previous) / |previous| * 100) else none))])
  | _, _ => .error ()

def yoyRow (acc : List (String × (ℚ × Option ℚ))) (name : String) :
    List (String × List Cell) → Except Unit (List (String × (ℚ × Option ℚ)))
  | [] => .ok acc
  | [(_, vs)] => yoyCells acc name (vs.getD 0 Cell.bad) (vs.getD 1 Cell.bad)
  | _ => .error ()

def yoyStep (s : Stmt) (acc : List (String × (ℚ × Option ℚ))) (km : String × String) :
    Except Unit (List (String × (ℚ × Option ℚ))) :=
  yoyRow acc km.2 (s.rows.filter (fun r => r.1 = km.1))

/-- calculate_yoy_metrics (visualizer.py lines 273-308): empty or
absent statements and statements with fewer than 2 period columns give
the empty mapping; otherwise the fixed metrics are folded in order. -/
def calculate_yoy_metrics (income_stmt : Option Stmt) :
    Except Unit (List (String × (ℚ × Option ℚ))) :=
  match income_stmt with
  | none => .ok []
  | some s =>
    if s.rows = [] ∨ s.ncols = 0 then .ok []
    else if s.ncols < 2 then .ok []
    else metrics_to_calc.foldlM (yoyStep s) []

theorem yoyStep_mono {s : Stmt} {acc acc' : List (String × (ℚ × Option ℚ))}
    {km : String × String} (h : yoyStep s acc km = .ok acc') :
    ∀ x ∈ acc, x ∈ acc' := by
  unfold yoyStep yoyRow at h
  split at h
  · cases h; exact fun x hx => hx
  · unfold yoyCells at h
    split at h <;> cases h
    exact fun x hx => List.mem_append_left _ hx
  · cases h

theorem foldlM_yoyStep_mono {s : Stmt} :
    ∀ (ms : List (String × String)) (acc out : List (String × (ℚ × Option ℚ))),
      List.foldlM (yoyStep s) acc ms = .ok out → ∀ x ∈ acc, x ∈ out := by
  intro ms
  induction ms with
  | nil => intro acc out h x hx; cases h; exact hx
  | cons m ms ih =>
    intro acc out h x hx
    rw [List.foldlM_cons] at h
    rcases hstep : yoyStep s acc m with e | acc₁ <;> rw [hstep] at h
    · cases h
    · exact ih acc₁ out h x (yoyStep_mono hstep x hx)

theorem foldlM_yoyStep_mem {s : Stmt} {key name nm : String} {vs : List Cell} {c p : ℚ}
    (hfilter : s.rows.filter (fun r => r.1 = key) = [(nm, vs)])
    (hc : vs.getD 0 Cell.bad = Cell.num c) (hp : vs.getD 1 Cell.bad = Cell.num p) :
    ∀ (ms : List (String × String)) (acc out : List (String × (ℚ × Option ℚ))),
      (key, name) ∈ ms → List.foldlM (yoyStep s) acc ms = .ok out →
      (name, (c, if p ≠ 0 then some ((c - p) / |p| * 100) else none)) ∈ out := by
  intro ms
  induction ms with
  | nil => intro acc out hmem; cases hmem
  | cons m ms ih =>
    intro acc out hmem h
    rw [List.foldlM_cons] at h
    rcases hstep : yoyStep s acc m with e | acc₁ <;> rw [hstep] at h
    · cases h
    · rcases List.mem_cons.mp hmem with heq | hmem'
      · subst heq
        unfold yoyStep at hstep
        rw [hfilter] at hstep
        simp only [yoyRow] at hstep
        rw [hc, hp] at hstep
        simp only [yoyCells] at hstep
        cases hstep
        refine foldlM_yoyStep_mono ms _ out h _ ?_
        exact List.mem_append_right _ (List.mem_singleton.mpr rfl)
      · exact ih acc₁ out hmem' h

/-- C8. The YoY calculation returns the empty mapping for an absent or
empty statement or fewer than 2 periods; and for a metric of the fixed
list present as an exact line-item with numeric current and previous
values, it pairs the period-0 value with (current - previous)/
abs(previous) * 100 when the previous value is non-zero and with None
when it is zero — never a division failure. -/
theorem C8_yoy_metrics :
    (calculate_yoy_metrics none = .ok []) ∧
    (∀ s : Stmt, s.rows = [] ∨ s.ncols < 2 → calculate_yoy_metrics (some s) = .ok []) ∧
    (∀ (s : Stmt) (out : List (String × (ℚ × Option ℚ))) (key name nm : String)
        (vs : List Cell) (c p : ℚ),
      calculate_yoy_metrics (some s) = .ok out →
      (key, name) ∈ metrics_to_calc →
      s.rows.filter (fun r => r.1 = key) = [(nm, vs)] →
      vs.getD 0 Cell.bad = Cell.num c → vs.getD 1 Cell.bad = Cell.num p →
      (name, (c, if p ≠ 0 then some ((c - p) / |p| * 100) else none)) ∈ out) := by
  refine ⟨rfl, ?_, ?_⟩
  · intro s hs
    simp only [calculate_yoy_metrics]
    rcases hs with hrows | hcols
    · rw [if_pos (Or.inl hrows)]
    · by_cases h0 : s.rows = [] ∨ s.ncols = 0
      · rw [if_pos h0]
      · rw [if_neg h0, if_pos hcols]
  · intro s out key name nm vs c p hcalc hmem hfilter hc hp
    simp only [calculate_yoy_metrics] at hcalc
    have hrows : s.rows ≠ [] := by
      intro he
      rw [he] at hfilter
      cases hfilter
    have hvs : (nm, vs) ∈ s.rows := by
      have : (nm, vs) ∈ s.rows.filter (fun r => r.1 = key) := by
        rw [hfilter]; exact List.mem_singleton.mpr rfl
      exact List.mem_of_mem_filter this
    have hlen : vs.length = s.ncols := s.wf _ hvs
    have hcols : ¬ s.ncols < 2 := by
      intro hlt
      have h1 : vs.getD 1 Cell.bad = Cell.bad := by
        apply List.getD_eq_default
        omega
      rw [h1] at hp
      cases hp
    have hne : ¬ (s.rows = [] ∨ s.ncols = 0) := by
      rintro (h | h)
      · exact hrows h
      · omega
    rw [if_neg hne, if_neg hcols] at hcalc
    exact foldlM_yoyStep_mem hfilter hc hp metrics_to_calc [] out hmem hcalc

/-- Two-period statement for the C8 witness: Total Revenue grows from
100 to 110 and Gross Profit has previous value 0. -/
def yoyStmt : Stmt :=
  ⟨2, [("Total Revenue", [Cell.num 110, Cell.num 100]),
       ("Gross Profit", [Cell.num 50, Cell.num 0])], by decide⟩

/-- Single-period statement for the C8 witness. -/
def onePeriodStmt : Stmt := ⟨1, [("Total Revenue", [Cell.num 110])], by decide⟩

/-- Result of the YoY calculation on yoyStmt. -/
def yoyOut : List (String × (ℚ × Option ℚ)) :=
  [("Revenue", (110, if (100 : ℚ) ≠ 0 then
      some (((110 : ℚ) - 100) / |(100 : ℚ)| * 100) else none)),
   ("Gross Profit", (50, if (0 : ℚ) ≠ 0 then
      some (((50 : ℚ) - 0) / |(0 : ℚ)| * 100) else none))]

theorem yoyStmt_eval : calculate_yoy_metrics (some yoyStmt) = .ok yoyOut := rfl

/-- Witness for C8: a 1-period statement yields the empty mapping; on
the 2-period statement, Revenue gets a 10 percent change and Gross
Profit (previous value 0) gets None. -/
theorem C8_yoy_metrics_witness :
    calculate_yoy_metrics (some onePeriodStmt) = .ok [] ∧
    ("Revenue", ((110 : ℚ), if (100 : ℚ) ≠ 0 then
        some (((110 : ℚ) - 100) / |(100 : ℚ)| * 100) else none)) ∈ yoyOut ∧
    ("Gross Profit", ((50 : ℚ), if (0 : ℚ) ≠ 0 then
        some (((50 : ℚ) - 0) / |(0 : ℚ)| * 100) else none)) ∈ yoyOut :=
  ⟨C8_yoy_metrics.2.1 onePeriodStmt (Or.inr (by decide)),
   C8_yoy_metrics.2.2 yoyStmt yoyOut "Total Revenue" "Revenue" "Total Revenue"
     [Cell.num 110, Cell.num 100] 110 100 yoyStmt_eval (by decide) (by decide) rfl rfl,
   C8_yoy_metrics.2.2 yoyStmt yoyOut "Gross Profit" "Gross Profit" "Gross Profit"
     [Cell.num 50, Cell.num 0] 50 0 yoyStmt_eval (by decide) (by decide) rfl rfl⟩

/-- ASCII lowercasing of a message, as str.lower() acts on the ASCII
error messages the wrapper inspects. -/
def lowerStr (m : String) : List Char := m.data.map Char.toLower

/-- Whether the needle starts the haystack (character lists). -/
def startsWithChars : List Char → List Char → Bool
  | [], _ => true
  | _ :: _, [] => false
  | a :: as, b :: bs => a = b && startsWithChars as bs

/-- Substring test on character lists (Python `in` on str). -/
def containsSub (needle : List Char) : List Char → Bool
  | [] => startsWithChars needle []
  | c :: rest => startsWithChars needle (c :: rest) || containsSub needle rest

/-- Rate-limit sniffing of retry_on_rate_limit (utils.py lines 56-59):
the lowercased message contains "too many requests", "rate" or "429". -/
def isRateLimitMsg (e : String) : Bool :=
  containsSub "too many requests".data (lowerStr e) ||
  containsSub "rate".data (lowerStr e) ||
  containsSub "429".data (lowerStr e)

/-- The retry loop of retry_on_rate_limit (utils.py lines 52-66) from a
given attempt number. The wrapped call's outcome per invocation index is
given by f; the backoff sleeps do not affect the result and are elided.
The result pairs the loop's outcome with the number of invocations made
from this attempt on; falling out of the loop (max_retries = 0) returns
Python's None, embedded as `.ok none`. -/
def retryFrom {α : Type} (f : ℕ → Except String α) (max_retries attempt : ℕ) :
    Except String (Option α) × ℕ :=
  if _h : attempt < max_retries then
    match f attempt with
    | .ok v => (.ok (some v), 1)
    | .error e =>
      if isRateLimitMsg e ∧ attempt < max_retries - 1 then
        let r := retryFrom f max_retries (attempt + 1)
        (r.1, r.2 + 1)
      else (.error e, 1)
  else (.ok none, 0)
termination_by max_retries - attempt
decreasing_by omega

/-- retry_on_rate_limit (utils.py lines 47-68): run the loop from
attempt 0. -/
def retry_on_rate_limit {α : Type} (f : ℕ → Except String α) (max_retries : ℕ) :
    Except String (Option α) × ℕ :=
  retryFrom f max_retries 0

theorem retryFrom_ok {α : Type} {f : ℕ → Except String α} {m attempt : ℕ} {v : α}
    (hlt : attempt < m) (hv : f attempt = .ok v) :
    retryFrom f m attempt = (.ok (some v), 1) := by
  rw [retryFrom, dif_pos hlt, hv]

theorem retryFrom_error {α : Type} {f : ℕ → Except String α} {m attempt : ℕ} {e : String}
    (hlt : attempt < m) (he : f attempt = .error e) :
    retryFrom f m attempt =
      if isRateLimitMsg e = true ∧ attempt < m - 1 then
        ((retryFrom f m (attempt + 1)).1, (retryFrom f m (attempt + 1)).2 + 1)
      else (.error e, 1) := by
  rw [retryFrom, dif_pos hlt, he]

theorem retryFrom_all_fail {α : Type} (f : ℕ → Except String α) (e : String)
    (hrl : isRateLimitMsg e = true) :
    ∀ (k m attempt : ℕ), m - attempt = k + 1 → attempt < m →
      (∀ i, i < m → f i = .error e) →
      retryFrom f m attempt = (.error e, k + 1) := by
  intro k
  induction k with
  | zero =>
    intro m attempt hk hlt hf
    rw [retryFrom_error hlt (hf attempt hlt), if_neg]
    rintro ⟨-, hlt2⟩
    omega
  | succ k ih =>
    intro m attempt hk hlt hf
    rw [retryFrom_error hlt (hf attempt hlt), if_pos ⟨hrl, by omega⟩,
      ih m (attempt + 1) (by omega) (by omega) hf]

/-- C9. The wrapper retries only when the message contains the
rate-limit substrings and attempts remain; after max_retries matching
failures it re-raises the last one; a non-matching exception is
re-raised immediately after a single invocation; and a call failing
with "429 Too Many Requests" twice then succeeding returns the success
value after exactly 3 invocations under max_retries = 3. -/
theorem C9_retry_wrapper {α : Type} (f : ℕ → Except String α) (v : α) (e : String) :
    (f 0 = .error "429 Too Many Requests" → f 1 = .error "429 Too Many Requests" →
      f 2 = .ok v → retry_on_rate_limit f 3 = (.ok (some v), 3)) ∧
    (∀ m, 0 < m → isRateLimitMsg e = false → f 0 = .error e →
      retry_on_rate_limit f m = (.error e, 1)) ∧
    (∀ m, 0 < m → isRateLimitMsg e = true → (∀ i, i < m → f i = .error e) →
      retry_on_rate_limit f m = (.error e, m)) := by
  refine ⟨?_, ?_, ?_⟩
  · intro h0 h1 h2
    have hrl : isRateLimitMsg "429 Too Many Requests" = true := by decide
    unfold retry_on_rate_limit
    rw [retryFrom_error (by omega) h0, if_pos ⟨hrl, by omega⟩]
    rw [retryFrom_error (by omega) h1, if_pos ⟨hrl, by omega⟩]
    rw [retryFrom_ok (by omega) h2]
  · intro m hm hrl h0
    unfold retry_on_rate_limit
    rw [retryFrom_error hm h0, if_neg]
    rintro ⟨hc, -⟩
    rw [hrl] at hc
    cases hc
  · intro m hm hrl hf
    unfold retry_on_rate_limit
    have := retryFrom_all_fail f e hrl (m - 1) m 0 (by omega) hm hf
    rw [this]
    congr 1
    omega

/-- Wrapped call for the C9 witness: two 429 failures then success. -/
def retry429call (n : ℕ) : Except String ℕ :=
  if n < 2 then .error "429 Too Many Requests" else .ok 7

/-- Wrapped call for the C9 witness: a non-rate-limit failure. -/
def retryBadCall (_ : ℕ) : Except String ℕ := .error "bad input"

/-- Witness for C9: the 429-twice-then-success call returns 7 after
exactly 3 invocations, and the "bad input" failure propagates after a
single invocation. -/
theorem C9_retry_wrapper_witness :
    retry_on_rate_limit retry429call 3 = (.ok (some 7), 3) ∧
    retry_on_rate_limit retryBadCall 3 = (.error "bad input", 1) :=
  ⟨(C9_retry_wrapper retry429call 7 "x").1 rfl rfl rfl,
   (C9_retry_wrapper retryBadCall 7 "bad input").2.1 3 (by decide) (by decide) rfl⟩

theorem selectCol_filter_nil {s : Stmt} {p : ℤ} {latest : List (String × Cell)}
    {k : String} (hsel : selectCol s p = .ok latest) (hk : hasRow s k = false) :
    latest.filter (fun r => r.1 = k) = [] := by
  unfold selectCol at hsel
  split at hsel <;> cases hsel
  rw [List.filter_eq_nil_iff]
  intro a ha
  rcases List.mem_map.mp ha with ⟨r, hr, rfl⟩
  have := List.any_eq_false.mp hk r hr
  simpa using this

theorem get_val_all_missing {latest : List (String × Cell)} :
    ∀ keys : List String, (∀ k ∈ keys, latest.filter (fun r => r.1 = k) = []) →
      get_val latest keys = .ok 0 := by
  intro keys
  induction keys with
  | nil => intro _; rfl
  | cons k rest ih =>
    intro hall
    have hk := hall k (List.mem_cons_self k rest)
    simp only [get_val, hk]
    exact ih (fun k' hk' => hall k' (List.mem_cons_of_mem _ hk'))

/-- C10. The decomposition result is all-or-nothing: it is either the
empty mapping or carries exactly the eleven fixed keys in source order,
and a concept all of whose aliases are absent from the statement's row
labels still appears, with value 0. -/
theorem C10_all_or_nothing (stmt : Option Stmt) (pi : ℤ) (rm cm : ℚ)
    (d : DecomposedPeriod) (h : extract_sankey_data stmt pi rm cm = some d) :
    (toPairs d).map Prod.fst = sankeyKeys ∧
    (∀ s, stmt = some s →
      ((hasRow s "Total Revenue" = false ∧ hasRow s "Revenue" = false) →
        d.Revenue = 0) ∧
      ((hasRow s "Cost Of Revenue" = false ∧ hasRow s "Cost of Goods Sold" = false) →
        d.COGS = 0) ∧
      ((hasRow s "Operating Expense" = false ∧ hasRow s "Total Operating Expenses" = false) →
        d.OpEx_Total = 0) ∧
      (hasRow s "Research And Development" = false → d.RnD = 0) ∧
      (hasRow s "Selling General And Administration" = false → d.SGnA = 0) ∧
      ((hasRow s "Tax Provision" = false ∧ hasRow s "Income Tax Expense" = false) →
        d.Taxes = 0) ∧
      ((hasRow s "Interest Expense" = false ∧ hasRow s "Interest Income Expense Net" = false) →
        d.Interest = 0)) := by
  refine ⟨rfl, ?_⟩
  intro s hs
  obtain ⟨s', hs', hc⟩ := extract_sankey_data_inv h
  rw [hs] at hs'
  cases hs'
  obtain ⟨latest, r, c, o, n, g, t, i, hsel, h1, h2, h3, h4, h5, h6, h7, hd⟩ :=
    extract_core_inv hc
  subst hd
  refine ⟨?_, ?_, ?_, ?_, ?_, ?_, ?_⟩
  · rintro ⟨ha, hb⟩
    have : get_val latest ["Total Revenue", "Revenue"] = .ok 0 := by
      refine get_val_all_missing _ ?_
      intro k hk
      simp only [List.mem_cons, List.not_mem_nil, or_false] at hk
      rcases hk with rfl | rfl
      · exact selectCol_filter_nil hsel ha
      · exact selectCol_filter_nil hsel hb
    rw [h1] at this
    cases this
    rw [decomposeVals_Revenue, zero_mul]
  · rintro ⟨ha, hb⟩
    have : get_val latest ["Cost Of Revenue", "Cost of Goods Sold"] = .ok 0 := by
      refine get_val_all_missing _ ?_
      intro k hk
      simp only [List.mem_cons, List.not_mem_nil, or_false] at hk
      rcases hk with rfl | rfl
      · exact selectCol_filter_nil hsel ha
      · exact selectCol_filter_nil hsel hb
    rw [h2] at this
    cases this
    rw [decomposeVals_COGS, zero_mul]
  · rintro ⟨ha, hb⟩
    have : get_val latest ["Operating Expense", "Total Operating Expenses"] = .ok 0 := by
      refine get_val_all_missing _ ?_
      intro k hk
      simp only [List.mem_cons, List.not_mem_nil, or_false] at hk
      rcases hk with rfl | rfl
      · exact selectCol_filter_nil hsel ha
      · exact selectCol_filter_nil hsel hb
    rw [h3] at this
    cases this
    rw [decomposeVals_OpEx_Total]
  · intro ha
    have : get_val latest ["Research And Development"] = .ok 0 := by
      refine get_val_all_missing _ ?_
      intro k hk
      simp only [List.mem_cons, List.not_mem_nil, or_false] at hk
      subst hk
      exact selectCol_filter_nil hsel ha
    rw [h4] at this
    cases this
    rw [decomposeVals_RnD]
  · intro ha
    have : get_val latest ["Selling General And Administration"] = .ok 0 := by
      refine get_val_all_missing _ ?_
      intro k hk
      simp only [List.mem_cons, List.not_mem_nil, or_false] at hk
      subst hk
      exact selectCol_filter_nil hsel ha
    rw [h5] at this
    cases this
    rw [decomposeVals_SGnA]
  · rintro ⟨ha, hb⟩
    have : get_val latest ["Tax Provision", "Income Tax Expense"] = .ok 0 := by
      refine get_val_all_missing _ ?_
      intro k hk
      simp only [List.mem_cons, List.not_mem_nil, or_false] at hk
      rcases hk with rfl | rfl
      · exact selectCol_filter_nil hsel ha
      · exact selectCol_filter_nil hsel hb
    rw [h6] at this
    cases this
    rw [decomposeVals_Taxes]
  · rintro ⟨ha, hb⟩
    have : get_val latest ["Interest Expense", "Interest Income Expense Net"] = .ok 0 := by
      refine get_val_all_missing _ ?_
      intro k hk
      simp only [List.mem_cons, List.not_mem_nil, or_false] at hk
      rcases hk with rfl | rfl
      · exact selectCol_filter_nil hsel ha
      · exact selectCol_filter_nil hsel hb
    rw [h7] at this
    cases this
    rw [decomposeVals_Interest, abs_zero]

/-- Statement with no revenue aliases at all, for the C10 witness. -/
def noRevStmt : Stmt := ⟨1, [("Tax Provision", [Cell.num 5])], by decide⟩

theorem noRevStmt_eval :
    extract_sankey_data (some noRevStmt) 0 1 1 = some (decomposeVals 1 1 0 0 0 0 0 5 0) :=
  rfl

/-- Witness for C10: with both revenue aliases absent the Revenue key is
still present, holding 0, and the key list is the fixed eleven. -/
theorem C10_all_or_nothing_witness :
    (toPairs (decomposeVals 1 1 0 0 0 0 0 5 0)).map Prod.fst = sankeyKeys ∧
    (decomposeVals 1 1 0 0 0 0 0 5 0).Revenue = 0 :=
  have h := C10_all_or_nothing (some noRevStmt) 0 1 1 _ noRevStmt_eval
  ⟨h.1, ((h.2 noRevStmt rfl).1) (by decide)⟩

end FinSankey
